import Mathlib

/-!
Shallow embedding of `qlib/workflow/recorder.py` (class `Recorder` and its
concrete subclass `MLflowRecorder`).

Modelling conventions:
* The recorder object's mutable attributes become the fields of the
  `MLflowRecorder` structure; each method becomes a function from the old
  state (plus the method's arguments and the responses of the external
  world) to the new state.
* The external mlflow tracking service is opaque (spec §1, §6).  It is
  modelled by a `Backend` record holding the log of calls issued to the
  `MlflowClient` plus a name-indexed artifact store; values the backend
  *returns* (run id, artifact uri, download results) are either read from
  that store or passed in as explicit parameters.
* Wall-clock timestamps (`datetime.datetime.now().strftime(...)`) are
  external inputs, passed as a `now : String` parameter.
* Python exceptions become an `err : Option String` field in the result of
  each state-changing method (`none` = the call returned normally,
  `some msg` = the call raised); mutations performed before the raise are
  kept, matching Python semantics.  `load_object` / `get_artifact_uri` /
  `list_artifacts` return their value through `Except`.
-/

/-- `Recorder.STATUS_S` — the status string `"SCHEDULED"` (recorder.py line 22). -/
def STATUS_S : String := "SCHEDULED"

/-- `Recorder.STATUS_R` — the status string `"RUNNING"` (recorder.py line 23). -/
def STATUS_R : String := "RUNNING"

/-- `Recorder.STATUS_FI` — the status string `"FINISHED"` (recorder.py line 24). -/
def STATUS_FI : String := "FINISHED"

/-- `Recorder.STATUS_FA` — the status string `"FAILED"` (recorder.py line 25). -/
def STATUS_FA : String := "FAILED"

/-- The membership test of the `assert` at the top of `MLflowRecorder.end_run`
(recorder.py lines 192-197): the status argument must be one of the four
status strings. -/
def isValidStatus (s : String) : Bool :=
  s == STATUS_S || s == STATUS_R || s == STATUS_FI || s == STATUS_FA

/-- Objects that can be handed to `save_objects` as keyword values.
Modelled from the spec: the Artifact Codec (spec §2, §3) serializes
"arbitrary in-memory objects"; the model supports strings and naturals,
which is enough to express the codec laws the spec states. -/
inductive Obj where
  | ostr : String → Obj
  | onat : Nat → Obj
deriving DecidableEq

/-- Bytes of a file, as a list of naturals. -/
abbrev Bytes := List Nat

/-- The byte sequence of a string, one entry per character code point. -/
def strToBytes (s : String) : Bytes := s.data.map Char.toNat

/-- Modelled from the spec: the binary serialization the Artifact Codec uses
for staging (`pickle.dump` inside `FileManager.save_obj`; `FileManager`
lives in `qlib/utils/objm`, which is not part of the core source).  Like
real pickle (protocol ≥ 2), every serialized value starts with the marker
byte `0x80 = 128`, followed by a tag and a payload. -/
def pickleDumps : Obj → Bytes
  | .ostr s => 128 :: 0 :: strToBytes s
  | .onat n => 128 :: 1 :: List.replicate n 2

/-- Modelled from the spec: structured binary deserialization
(`pickle.load` in `MLflowRecorder.load_object`).  Returns `none` exactly
when the bytes are not a valid serialized value (no leading marker byte,
or a malformed payload). -/
def pickleLoads : Bytes → Option Obj
  | marker :: tag :: rest =>
      if marker = 128 then
        if tag = 0 then
          if rest.all (fun b => decide (Nat.isValidChar b)) then
            some (.ostr ⟨rest.map Char.ofNat⟩)
          else none
        else if tag = 1 then
          if rest.all (fun b => b == 2) then some (.onat rest.length) else none
        else none
      else none
  | _ => none

/-- Modelled from the spec: reading the downloaded artifact back as UTF-8
text (`codecs.open(path, mode="r", encoding="utf-8")` in `load_object`).
In the model a byte sequence is valid text iff every byte is an ASCII code
(< 128); in particular serialized values, which start with `128`, are never
valid text, and plain ASCII text never carries the serialization marker. -/
def utf8Decode (bs : Bytes) : Option String :=
  if bs.all (fun b => decide (b < 128)) then some ⟨bs.map Char.ofNat⟩ else none

/-- The two-tier fallback of `MLflowRecorder.load_object` (recorder.py lines
216-222): try structured deserialization; on any failure re-read the same
bytes as UTF-8 text; only if that also fails does an error propagate. -/
def decodeFallback (bs : Bytes) : Except String (Obj ⊕ String) :=
  match pickleLoads bs with
  | some o => .ok (.inl o)
  | none =>
      match utf8Decode bs with
      | some s => .ok (.inr s)
      | none => .error "UnicodeDecodeError"

/-- One call issued to the external tracking service through
`self.client` / the `mlflow` module (spec §6).  The first argument of each
client call is `self.id`, which is `None` until `start_run` binds it.
`logMetric` carries the client's optional step argument; the source calls
`client.log_metric(self.id, name, data)` without it, so the embedding
records `none` there. -/
inductive BackendCall where
  | logParam (run_id : Option String) (key : String) (value : String)
  | logMetric (run_id : Option String) (key : String) (value : String) (step : Option Nat)
  | setTag (run_id : Option String) (key : String) (value : String)
  | deleteTag (run_id : Option String) (key : String)
  | logArtifact (run_id : Option String) (file_name : String) (artifact_path : Option String)
  | logArtifacts (run_id : Option String) (local_path : String) (artifact_path : Option String)
  | listArtifacts (run_id : Option String) (artifact_path : Option String)
  | endRun (status : String)
deriving DecidableEq

/-- Look up the value stored under a key in an association list
(the model of both the staging directory's files and the backend's
artifact store). -/
def assocGet : List (String × Bytes) → String → Option Bytes
  | [], _ => none
  | (k', v') :: rest, k => if k' = k then some v' else assocGet rest k

/-- Write a value under a key, overwriting an existing entry with the same
key (file writes are last-write-wins, spec §3). -/
def assocSet : List (String × Bytes) → String → Bytes → List (String × Bytes)
  | [], k, v => [(k, v)]
  | (k', v') :: rest, k, v =>
      if k' = k then (k, v) :: rest else (k', v') :: assocSet rest k v

/-- The key under which `client.log_artifact(self.id, local_file, artifact_path)`
stores a staged file named `name` in the artifact store: the bare name when
no artifact path is given, otherwise `artifact_path/name`. -/
def artifactKey (artifact_path : Option String) (name : String) : String :=
  match artifact_path with
  | none => name
  | some ap => ap ++ "/" ++ name

/-- The state of the external tracking service as seen by one recorder:
the log of client calls issued so far and the artifact store of the run. -/
structure Backend where
  calls : List BackendCall
  artifacts : List (String × Bytes)
deriving DecidableEq

/-- A backend with no calls issued and no stored artifacts. -/
def Backend.init : Backend := { calls := [], artifacts := [] }

/-- The attributes of an `MLflowRecorder` object.  The fields up to `status`
are set by `Recorder.__init__` (recorder.py lines 27-33); `_uri`,
`artifact_uri` and the staging directory are added by
`MLflowRecorder.__init__` (lines 170-177).  `temp_dir` is `some files`
while the staging directory exists (holding its named files) and `none`
after `shutil.rmtree` has removed it. -/
structure MLflowRecorder where
  id : Option String
  name : String
  experiment_id : String
  start_time : Option String
  end_time : Option String
  status : String
  _uri : Option String
  artifact_uri : Option String
  temp_dir : Option (List (String × Bytes))
deriving DecidableEq

/-- `MLflowRecorder.__init__(name, experiment_id, uri)` (recorder.py lines
170-177, including the base `Recorder.__init__` it calls): no run id, no
timestamps, status `SCHEDULED`, no artifact uri, and a fresh empty staging
directory created by `tempfile.mkdtemp()`. -/
def MLflowRecorder.init (name experiment_id : String) (uri : Option String) :
    MLflowRecorder :=
  { id := none
    name := name
    experiment_id := experiment_id
    start_time := none
    end_time := none
    status := STATUS_S
    _uri := uri
    artifact_uri := none
    temp_dir := some [] }

/-- The result of a state-changing recorder method: the new recorder state,
the new backend state, and the exception raised, if any. -/
structure OpResult where
  recorder : MLflowRecorder
  backend : Backend
  err : Option String
deriving DecidableEq

/-- The assert message shared by `save_objects`, `load_object` and
`list_artifacts` (recorder.py lines 205, 214, 252). -/
def uriAssertMsg : String :=
  "Please start the experiment and recorder first before using recorder directly."

/-- `MLflowRecorder.start_run` (recorder.py lines 179-189).
`mlflow.start_run(self.id, self.experiment_id, self.name)` is a call to the
external service; its response — the run id and artifact uri of the created
or resumed run — enters the model as the parameters `backend_run_id` and
`backend_artifact_uri`, and the wall clock as `now`.  The method then binds
`self.id` and `self.artifact_uri`, stamps `self.start_time` and sets
`self.status = Recorder.STATUS_R`. -/
def MLflowRecorder.start_run (r : MLflowRecorder)
    (backend_run_id backend_artifact_uri now : String) : MLflowRecorder :=
  { r with
    id := some backend_run_id
    artifact_uri := some backend_artifact_uri
    start_time := some now
    status := STATUS_R }

/-- `MLflowRecorder.end_run(status=Recorder.STATUS_S)` (recorder.py lines
191-202), in source order:
1. `assert status in [...]` — an invalid status raises before anything else;
2. `mlflow.end_run(status)` — a backend call; `backendRaises` says whether
   the external service raises out of it (network failure), in which case
   the exception propagates with no attribute of `self` yet modified;
3. `self.end_time = now`;
4. `if self.status != Recorder.STATUS_S: self.status = status`;
5. `shutil.rmtree(self.temp_dir)` — removes the staging directory; if it
   was already removed, `rmtree` raises `FileNotFoundError` (steps 3 and 4
   have already mutated `self` at that point). -/
def MLflowRecorder.end_run (r : MLflowRecorder) (b : Backend)
    (status now : String) (backendRaises : Bool) : OpResult :=
  if isValidStatus status then
    let b' := { b with calls := b.calls ++ [BackendCall.endRun status] }
    if backendRaises then ⟨r, b', some "BackendUnavailableError"⟩
    else
      let r1 := { r with end_time := some now }
      let r2 := if r1.status = STATUS_S then r1 else { r1 with status := status }
      match r2.temp_dir with
      | some _ => ⟨{ r2 with temp_dir := none }, b', none⟩
      | none => ⟨r2, b', some "FileNotFoundError"⟩
  else ⟨r, b, some ("The status type " ++ status ++ " is not supported.")⟩

/-- The `for name, data in kwargs.items()` loop of `save_objects`
(recorder.py lines 209-211): each object is serialized into the staging
directory under its keyword name via `self.fm.save_obj(data, name)`
(overwriting an existing staged file of that name), then the staged file is
uploaded with `self.client.log_artifact(self.id, self.fm.path / name,
artifact_path)`. -/
def save_objects_loop (id : Option String) (artifact_path : Option String) :
    List (String × Obj) → List (String × Bytes) → Backend →
    List (String × Bytes) × Backend
  | [], staged, b => (staged, b)
  | (name, data) :: rest, staged, b =>
      let bytes := pickleDumps data
      let staged' := assocSet staged name bytes
      let b' : Backend :=
        { calls := b.calls ++ [BackendCall.logArtifact id name artifact_path]
          artifacts := assocSet b.artifacts (artifactKey artifact_path name) bytes }
      save_objects_loop id artifact_path rest staged' b'

/-- `MLflowRecorder.save_objects(local_path=None, artifact_path=None,
**kwargs)` (recorder.py lines 204-211):
1. `assert self._uri is not None` with the shared generic message;
2. if `local_path` is given, the single call
   `self.client.log_artifacts(self.id, local_path, artifact_path)` uploads
   that path and the keyword objects are never looked at;
3. otherwise each keyword object is staged and uploaded by the loop; the
   staging write raises `FileNotFoundError` if the staging directory no
   longer exists. -/
def MLflowRecorder.save_objects (r : MLflowRecorder) (b : Backend)
    (local_path artifact_path : Option String) (kwargs : List (String × Obj)) :
    OpResult :=
  if r._uri = none then ⟨r, b, some uriAssertMsg⟩
  else
    match local_path with
    | some lp =>
        ⟨r, { b with calls := b.calls ++ [BackendCall.logArtifacts r.id lp artifact_path] },
          none⟩
    | none =>
        match r.temp_dir with
        | some staged =>
            let (staged', b') := save_objects_loop r.id artifact_path kwargs staged b
            ⟨{ r with temp_dir := some staged' }, b', none⟩
        | none =>
            if kwargs.isEmpty then ⟨r, b, none⟩ else ⟨r, b, some "FileNotFoundError"⟩

/-- `MLflowRecorder.load_object(name)` (recorder.py lines 213-222):
1. `assert self._uri is not None` with the shared generic message;
2. `self.client.download_artifacts(self.id, name)` fetches the stored bytes
   (raising if the artifact does not exist);
3. the two-tier `decodeFallback` is applied to the bytes: the `try` block
   runs `pickle.load`, the bare `except:` re-reads the file as UTF-8 text. -/
def MLflowRecorder.load_object (r : MLflowRecorder) (b : Backend) (name : String) :
    Except String (Obj ⊕ String) :=
  if r._uri = none then .error uriAssertMsg
  else
    match assocGet b.artifacts name with
    | none => .error "ArtifactNotFound"
    | some bytes => decodeFallback bytes

/-- `MLflowRecorder.log_params(**kwargs)` (recorder.py lines 224-227): no
precondition check of any kind; one `client.log_param(self.id, name, data)`
call per entry.  (The `keys = list(kwargs.keys())` line of the source is
dead code.) -/
def MLflowRecorder.log_params (r : MLflowRecorder) (b : Backend)
    (kwargs : List (String × String)) : OpResult :=
  ⟨r, { b with calls := b.calls ++ kwargs.map (fun p => BackendCall.logParam r.id p.1 p.2) },
    none⟩

/-- `MLflowRecorder.log_metrics(step=None, **kwargs)` (recorder.py lines
229-232): no precondition check; one `client.log_metric(self.id, name, data)`
call per entry.  The `step` parameter appears in the signature but is never
used in the body, so the client call's optional step argument is always left
at its default (`none`). -/
def MLflowRecorder.log_metrics (r : MLflowRecorder) (b : Backend)
    (step : Option Nat) (kwargs : List (String × String)) : OpResult :=
  ⟨r,
    { b with
      calls := b.calls ++ kwargs.map (fun p => BackendCall.logMetric r.id p.1 p.2 none) },
    none⟩

/-- `MLflowRecorder.set_tags(**kwargs)` (recorder.py lines 234-237): no
precondition check; one `client.set_tag(self.id, name, data)` call per
entry. -/
def MLflowRecorder.set_tags (r : MLflowRecorder) (b : Backend)
    (kwargs : List (String × String)) : OpResult :=
  ⟨r, { b with calls := b.calls ++ kwargs.map (fun p => BackendCall.setTag r.id p.1 p.2) },
    none⟩

/-- `MLflowRecorder.delete_tags(*keys)` (recorder.py lines 239-241): no
precondition check; one `client.delete_tag(self.id, key)` call per key. -/
def MLflowRecorder.delete_tags (r : MLflowRecorder) (b : Backend)
    (keys : List String) : OpResult :=
  ⟨r, { b with calls := b.calls ++ keys.map (fun k => BackendCall.deleteTag r.id k) },
    none⟩

/-- The error message of `MLflowRecorder.get_artifact_uri` (recorder.py
lines 247-249). -/
def artifactUriMsg : String :=
  "Please make sure the recorder has been created and started properly before getting artifact uri."

/-- `MLflowRecorder.get_artifact_uri()` (recorder.py lines 243-249): return
`self.artifact_uri` when it is set, otherwise raise.  The method touches no
attribute, so the recorder state it returns is the one it was given. -/
def MLflowRecorder.get_artifact_uri (r : MLflowRecorder) :
    Except String String × MLflowRecorder :=
  match r.artifact_uri with
  | some uri => (.ok uri, r)
  | none => (.error artifactUriMsg, r)

/-- `MLflowRecorder.list_artifacts(artifact_path=None)` (recorder.py lines
251-254): `assert self._uri is not None` with the shared generic message,
then return the backend's fresh listing via
`self.client.list_artifacts(self.id, artifact_path)`. -/
def MLflowRecorder.list_artifacts (r : MLflowRecorder) (b : Backend)
    (artifact_path : Option String) :
    Except String (List (String × Bytes)) × Backend :=
  if r._uri = none then (.error uriAssertMsg, b)
  else
    (.ok b.artifacts,
      { b with calls := b.calls ++ [BackendCall.listArtifacts r.id artifact_path] })

/-- A concrete recorder constructed with a tracking uri and started once:
`MLflowRecorder("r1", "e1", "file:mlruns")` followed by `start_run()` where
the backend answered with run id `"id1"` and artifact uri `"art:/r1"`. -/
def r1started : MLflowRecorder :=
  (MLflowRecorder.init "r1" "e1" (some "file:mlruns")).start_run "id1" "art:/r1" "t1"

/-- A backend whose artifact store holds one artifact `"note"` whose bytes
are the ASCII text `"hi"` (bytes 104, 105) — not a serialized value. -/
def noteBackend : Backend := { calls := [], artifacts := [("note", [104, 105])] }

/- ===================== theorems ===================== -/

/-- Every character's code point satisfies the validity predicate. -/
theorem charToNat_isValidChar (c : Char) : Nat.isValidChar (Char.toNat c) := c.valid

/-- Deserializing a serialized object gives the object back (the codec law
the spec states for the Artifact Codec). -/
theorem pickleLoads_pickleDumps (o : Obj) : pickleLoads (pickleDumps o) = some o := by
  cases o with
  | ostr s =>
      have hall : ∀ x ∈ strToBytes s, 55296 ≤ x → 57343 < x ∧ x < 1114112 := by
        intro b hb h1
        rw [strToBytes] at hb
        obtain ⟨c, _, rfl⟩ := List.mem_map.1 hb
        rcases charToNat_isValidChar c with h | ⟨h2, h3⟩
        · omega
        · exact ⟨by omega, h3⟩
      have hmap : (strToBytes s).map Char.ofNat = s.data := by
        simp [strToBytes, List.map_map, Function.comp_def, Char.ofNat_toNat]
      show pickleLoads (128 :: 0 :: strToBytes s) = some (.ostr s)
      simp [pickleLoads, hmap]
      exact hall
  | onat n =>
      show pickleLoads (128 :: 1 :: List.replicate n 2) = some (.onat n)
      simp [pickleLoads]

/-- Reading a key just written into the association-list store yields the
written value. -/
theorem assocGet_assocSet_self (l : List (String × Bytes)) (k : String) (v : Bytes) :
    assocGet (assocSet l k v) k = some v := by
  induction l with
  | nil => simp [assocSet, assocGet]
  | cons p rest ih =>
      obtain ⟨k', v'⟩ := p
      by_cases hk : k' = k
      · simp [assocSet, assocGet, hk]
      · simp [assocSet, assocGet, hk, ih]

/-- C1: for every recorder and every valid status argument, `end_run(status)`
sets `end_time` to the current time, and it overwrites `status` with the
given status only when the current status differs from `SCHEDULED`; called
on a still-`SCHEDULED` recorder, `status` remains `SCHEDULED` while
`end_time` is still populated. -/
theorem end_run_sets_end_time_and_overwrites_iff_not_scheduled
    (r : MLflowRecorder) (b : Backend) (status now : String)
    (h : isValidStatus status = true) :
    ((r.end_run b status now false).recorder.end_time = some now) ∧
    (r.status = STATUS_S → (r.end_run b status now false).recorder.status = STATUS_S) ∧
    (r.status ≠ STATUS_S → (r.end_run b status now false).recorder.status = status) := by
  by_cases hr : r.status = STATUS_S <;> cases hdt : r.temp_dir <;>
    simp [MLflowRecorder.end_run, h, hr, hdt]

/-- Witness for C1: a never-started recorder ended with `FINISHED` gets its
`end_time` set while its status stays `SCHEDULED`. -/
theorem end_run_sets_end_time_witness :
    isValidStatus STATUS_FI = true ∧
    ((((MLflowRecorder.init "r1" "e1" (some "u")).end_run Backend.init STATUS_FI "t" false).recorder.end_time
        = some "t") ∧
      ((MLflowRecorder.init "r1" "e1" (some "u")).status = STATUS_S →
        ((MLflowRecorder.init "r1" "e1" (some "u")).end_run Backend.init STATUS_FI "t" false).recorder.status
          = STATUS_S) ∧
      ((MLflowRecorder.init "r1" "e1" (some "u")).status ≠ STATUS_S →
        ((MLflowRecorder.init "r1" "e1" (some "u")).end_run Backend.init STATUS_FI "t" false).recorder.status
          = STATUS_FI)) :=
  ⟨by decide,
    end_run_sets_end_time_and_overwrites_iff_not_scheduled
      (MLflowRecorder.init "r1" "e1" (some "u")) Backend.init STATUS_FI "t" (by decide)⟩

/-- C2 counterexample: the backward transition `RUNNING → SCHEDULED` is
reachable — a started recorder on which `end_run` is called with the
(default) `SCHEDULED` status argument moves from `RUNNING` back to
`SCHEDULED`, refuting the claim that status only ever moves along
`SCHEDULED → RUNNING → {FINISHED, FAILED}`. -/
theorem end_run_running_to_scheduled_reachable :
    r1started.status = STATUS_R ∧
    (r1started.end_run Backend.init STATUS_S "t2" false).recorder.status = STATUS_S := by
  decide

/-- C2 (amended): status begins at `SCHEDULED`; `start_run` always sets
`RUNNING`; and `end_run(s)` with a valid `s` leaves a `SCHEDULED` status
unchanged but overwrites any other status with `s` — for any of the four
values of `s`, so e.g. `RUNNING → SCHEDULED` (via the default status
argument) and transitions out of `FINISHED`/`FAILED` are also reachable. -/
theorem status_transition_rule (nm eid rid art t0 t1 s : String) (uri : Option String)
    (r : MLflowRecorder) (b : Backend)
    (h : isValidStatus s = true) :
    (MLflowRecorder.init nm eid uri).status = STATUS_S ∧
    (r.start_run rid art t0).status = STATUS_R ∧
    (r.end_run b s t1 false).recorder.status =
      (if r.status = STATUS_S then r.status else s) := by
  refine ⟨rfl, rfl, ?_⟩
  by_cases hr : r.status = STATUS_S <;> cases hdt : r.temp_dir <;>
    simp [MLflowRecorder.end_run, h, hr, hdt]

/-- Witness for the amended C2 at concrete inputs. -/
theorem status_transition_rule_witness :
    isValidStatus STATUS_S = true ∧
    ((MLflowRecorder.init "r1" "e1" (some "u")).status = STATUS_S ∧
      (r1started.start_run "id2" "art2" "t3").status = STATUS_R ∧
      (r1started.end_run Backend.init STATUS_S "t2" false).recorder.status =
        (if r1started.status = STATUS_S then r1started.status else STATUS_S)) :=
  ⟨by decide,
    status_transition_rule "r1" "e1" "id2" "art2" "t3" "t2" STATUS_S (some "u")
      r1started Backend.init (by decide)⟩

/-- C3 counterexample: `save_objects(local_path="/tmp/dir", model=1)` on a
started recorder raises no `AmbiguousInvocationError` (no error at all),
and it does upload: the local path is pushed to the backend while the
keyword object is silently ignored (nothing reaches the artifact store). -/
theorem save_objects_both_modes_counterexample :
    (r1started.save_objects Backend.init (some "/tmp/dir") none [("model", Obj.onat 1)]).err
      = none ∧
    (r1started.save_objects Backend.init (some "/tmp/dir") none [("model", Obj.onat 1)]).backend.calls
      = [BackendCall.logArtifacts (some "id1") "/tmp/dir" none] ∧
    (r1started.save_objects Backend.init (some "/tmp/dir") none [("model", Obj.onat 1)]).backend.artifacts
      = [] := by
  decide

/-- C3 (amended): when `save_objects` is given both a non-None `local_path`
and keyword objects, it raises nothing: the local-path mode wins, the call
uploads that path with a single `log_artifacts` backend call, and the
keyword objects are silently ignored (recorder state, staging area and
artifact store untouched). -/
theorem save_objects_local_path_wins (r : MLflowRecorder) (b : Backend)
    (lp : String) (ap : Option String) (kwargs : List (String × Obj))
    (h : r._uri ≠ none) :
    r.save_objects b (some lp) ap kwargs =
      ⟨r, { b with calls := b.calls ++ [BackendCall.logArtifacts r.id lp ap] }, none⟩ := by
  simp [MLflowRecorder.save_objects, h]

/-- Witness for the amended C3 at concrete inputs. -/
theorem save_objects_local_path_wins_witness :
    r1started._uri ≠ none ∧
    r1started.save_objects Backend.init (some "/tmp/dir") none [("model", Obj.onat 1)] =
      ⟨r1started,
        { Backend.init with
          calls := Backend.init.calls ++ [BackendCall.logArtifacts r1started.id "/tmp/dir" none] },
        none⟩ :=
  ⟨by decide,
    save_objects_local_path_wins r1started Backend.init "/tmp/dir" none
      [("model", Obj.onat 1)] (by decide)⟩

/-- C4: if the stored artifact's bytes are not valid structured (pickle)
input but are valid UTF-8, `load_object` returns the UTF-8-decoded string
rather than raising. -/
theorem load_object_utf8_fallback (r : MLflowRecorder) (b : Backend)
    (name s : String) (bytes : Bytes)
    (hu : r._uri ≠ none)
    (hget : assocGet b.artifacts name = some bytes)
    (hp : pickleLoads bytes = none)
    (ht : utf8Decode bytes = some s) :
    r.load_object b name = Except.ok (Sum.inr s) := by
  simp [MLflowRecorder.load_object, hu, hget, decodeFallback, hp, ht]

/-- Witness for C4: the two-byte ASCII artifact `"hi"` is not valid pickle
input but decodes as text, and `load_object` returns the string. -/
theorem load_object_utf8_fallback_witness :
    r1started._uri ≠ none ∧
    assocGet noteBackend.artifacts "note" = some [104, 105] ∧
    pickleLoads [104, 105] = none ∧
    utf8Decode [104, 105] = some "hi" ∧
    r1started.load_object noteBackend "note" = Except.ok (Sum.inr "hi") :=
  ⟨by decide, by decide, by decide, by decide,
    load_object_utf8_fallback r1started noteBackend "note" "hi" [104, 105]
      (by decide) (by decide) (by decide) (by decide)⟩

/-- C5 counterexample: on a recorder whose run has not been started (no run
id bound) but that was constructed with a tracking uri, `log_params` does
not fail at all — it proceeds and issues a backend call carrying the
unbound run id `None`, refuting the claim that every logging/artifact
operation fails with a precondition error before any backend effect. -/
theorem log_params_unbound_counterexample :
    (MLflowRecorder.init "r1" "e1" (some "file:mlruns")).id = none ∧
    ((MLflowRecorder.init "r1" "e1" (some "file:mlruns")).log_params Backend.init
        [("lr", "0.01")]).err = none ∧
    ((MLflowRecorder.init "r1" "e1" (some "file:mlruns")).log_params Backend.init
        [("lr", "0.01")]).backend.calls = [BackendCall.logParam none "lr" "0.01"] := by
  decide

/-- C5 (amended): `log_params`, `log_metrics`, `set_tags` and `delete_tags`
perform no precondition check at all — on an unstarted recorder they
proceed and issue backend calls with the unbound run id; `save_objects`,
`load_object` and `list_artifacts` fail only when the constructor-supplied
tracking uri is `None`, all with the same generic message that does not
name the operation attempted; `get_artifact_uri` raises a precondition
error when `artifact_uri` is unset. -/
theorem unbound_precondition_rule (r : MLflowRecorder) (b : Backend)
    (kwargs : List (String × String)) (step : Option Nat)
    (ks : List String) (nm lp : String) (ap : Option String)
    (objs : List (String × Obj))
    (hu : r._uri = none) :
    (r.log_params b kwargs).err = none ∧
    (r.log_metrics b step kwargs).err = none ∧
    (r.set_tags b kwargs).err = none ∧
    (r.delete_tags b ks).err = none ∧
    (r.save_objects b (some lp) ap objs).err = some uriAssertMsg ∧
    r.load_object b nm = Except.error uriAssertMsg ∧
    (r.list_artifacts b ap).1 = Except.error uriAssertMsg ∧
    (r.artifact_uri = none → (r.get_artifact_uri).1 = Except.error artifactUriMsg) := by
  refine ⟨rfl, rfl, rfl, rfl, ?_, ?_, ?_, ?_⟩
  · simp [MLflowRecorder.save_objects, hu]
  · simp [MLflowRecorder.load_object, hu]
  · simp [MLflowRecorder.list_artifacts, hu]
  · intro ha
    simp [MLflowRecorder.get_artifact_uri, ha]

/-- Witness for the amended C5 on a recorder constructed without a tracking
uri. -/
theorem unbound_precondition_rule_witness :
    (MLflowRecorder.init "r0" "e0" none)._uri = none ∧
    (((MLflowRecorder.init "r0" "e0" none).log_params Backend.init [("lr", "0.01")]).err = none ∧
      ((MLflowRecorder.init "r0" "e0" none).log_metrics Backend.init (some 1) [("acc", "0.9")]).err = none ∧
      ((MLflowRecorder.init "r0" "e0" none).set_tags Backend.init [("k", "v")]).err = none ∧
      ((MLflowRecorder.init "r0" "e0" none).delete_tags Backend.init ["k"]).err = none ∧
      ((MLflowRecorder.init "r0" "e0" none).save_objects Backend.init (some "/tmp/d") none
          [("m", Obj.onat 1)]).err = some uriAssertMsg ∧
      (MLflowRecorder.init "r0" "e0" none).load_object Backend.init "m" = Except.error uriAssertMsg ∧
      ((MLflowRecorder.init "r0" "e0" none).list_artifacts Backend.init none).1 = Except.error uriAssertMsg ∧
      ((MLflowRecorder.init "r0" "e0" none).artifact_uri = none →
        ((MLflowRecorder.init "r0" "e0" none).get_artifact_uri).1 = Except.error artifactUriMsg)) :=
  ⟨by decide,
    unbound_precondition_rule (MLflowRecorder.init "r0" "e0" none) Backend.init
      [("lr", "0.01")] (some 1) ["k"] "m" "/tmp/d" none [("m", Obj.onat 1)] (by decide)⟩

/-- C6: for every codec-supported object `obj` and name `x`,
`save_objects(x=obj)` on a recorder with a tracking uri and a live staging
directory (as any started recorder has), followed by `load_object("x")`,
returns the saved object. -/
theorem save_load_roundtrip (r : MLflowRecorder) (b : Backend) (x : String)
    (obj : Obj) (staged : List (String × Bytes))
    (hu : r._uri ≠ none) (ht : r.temp_dir = some staged) :
    ((r.save_objects b none none [(x, obj)]).err = none) ∧
    ((r.save_objects b none none [(x, obj)]).recorder.load_object
        (r.save_objects b none none [(x, obj)]).backend x = Except.ok (Sum.inl obj)) := by
  simp [MLflowRecorder.save_objects, hu, ht, save_objects_loop,
    MLflowRecorder.load_object, artifactKey, assocGet_assocSet_self, decodeFallback,
    pickleLoads_pickleDumps]

/-- Witness for C6: saving and reloading the object `7` under the name
`"model"` on a concrete started recorder. -/
theorem save_load_roundtrip_witness :
    r1started._uri ≠ none ∧
    r1started.temp_dir = some [] ∧
    (((r1started.save_objects Backend.init none none [("model", Obj.onat 7)]).err = none) ∧
      ((r1started.save_objects Backend.init none none [("model", Obj.onat 7)]).recorder.load_object
          (r1started.save_objects Backend.init none none [("model", Obj.onat 7)]).backend "model"
        = Except.ok (Sum.inl (Obj.onat 7)))) :=
  ⟨by decide, by decide,
    save_load_roundtrip r1started Backend.init "model" (Obj.onat 7) [] (by decide) (by decide)⟩

/-- C7 counterexample: when the backend call inside `end_run` raises, the
exception propagates and `shutil.rmtree` is never reached — the staging
area of the recorder still exists after the call, refuting the claim that
every `end_run` call fully removes it. -/
theorem end_run_backend_raise_counterexample :
    (r1started.end_run Backend.init STATUS_FI "t2" true).err = some "BackendUnavailableError" ∧
    r1started.temp_dir = some [] ∧
    (r1started.end_run Backend.init STATUS_FI "t2" true).recorder.temp_dir = some [] := by
  decide

/-- C7 (amended): `end_run` fully removes the staging area (and its staged
files) only when it runs to completion: on the graceful path the staging
directory becomes absent, but if the backend end-run call inside `end_run`
raises, the staging directory and all its staged files are left in place. -/
theorem end_run_staging_release_rule (r : MLflowRecorder) (b : Backend)
    (s now : String) (staged : List (String × Bytes))
    (hs : isValidStatus s = true) (ht : r.temp_dir = some staged) :
    ((r.end_run b s now false).recorder.temp_dir = none) ∧
    ((r.end_run b s now true).recorder.temp_dir = some staged) := by
  by_cases hr : r.status = STATUS_S <;> simp [MLflowRecorder.end_run, hs, hr, ht]

/-- Witness for the amended C7 at concrete inputs. -/
theorem end_run_staging_release_rule_witness :
    isValidStatus STATUS_FI = true ∧
    r1started.temp_dir = some [] ∧
    (((r1started.end_run Backend.init STATUS_FI "t2" false).recorder.temp_dir = none) ∧
      ((r1started.end_run Backend.init STATUS_FI "t2" true).recorder.temp_dir = some [])) :=
  ⟨by decide, by decide,
    end_run_staging_release_rule r1started Backend.init STATUS_FI "t2" [] (by decide) (by decide)⟩

/-- C8: after a single `start_run()`, `get_artifact_uri()` succeeds with the
artifact uri the backend assigned, and calling it a second time on the
state the first call returned gives the same value. -/
theorem get_artifact_uri_idempotent (r : MLflowRecorder) (rid art now : String) :
    ((r.start_run rid art now).get_artifact_uri).1 = Except.ok art ∧
    (((r.start_run rid art now).get_artifact_uri).2.get_artifact_uri).1 =
      ((r.start_run rid art now).get_artifact_uri).1 := by
  simp [MLflowRecorder.start_run, MLflowRecorder.get_artifact_uri]

/-- C9: the `step` argument of `log_metrics` has no effect whatsoever: for
any two step values the call produces the identical result — same recorder
state, same backend call sequence, no error — because the source never
forwards `step` to the client. -/
theorem log_metrics_step_irrelevant (r : MLflowRecorder) (b : Backend)
    (s1 s2 : Option Nat) (kwargs : List (String × String)) :
    r.log_metrics b s1 kwargs = r.log_metrics b s2 kwargs := rfl

/-- C10: for every recorder and valid status argument, `end_run` leaves
`id`, `name`, `experiment_id`, `start_time` and `artifact_uri` unchanged,
on the graceful path and on the path where the backend call raises alike;
it only ever touches `end_time`, (conditionally) `status`, and the staging
directory. -/
theorem end_run_frame (r : MLflowRecorder) (b : Backend) (s now : String)
    (backendRaises : Bool) (h : isValidStatus s = true) :
    (r.end_run b s now backendRaises).recorder.id = r.id ∧
    (r.end_run b s now backendRaises).recorder.name = r.name ∧
    (r.end_run b s now backendRaises).recorder.experiment_id = r.experiment_id ∧
    (r.end_run b s now backendRaises).recorder.start_time = r.start_time ∧
    (r.end_run b s now backendRaises).recorder.artifact_uri = r.artifact_uri := by
  cases backendRaises <;> by_cases hr : r.status = STATUS_S <;> cases hdt : r.temp_dir <;>
    simp [MLflowRecorder.end_run, h, hr, hdt]

/-- Witness for C10 at concrete inputs. -/
theorem end_run_frame_witness :
    isValidStatus STATUS_FA = true ∧
    ((r1started.end_run Backend.init STATUS_FA "t2" false).recorder.id = r1started.id ∧
      (r1started.end_run Backend.init STATUS_FA "t2" false).recorder.name = r1started.name ∧
      (r1started.end_run Backend.init STATUS_FA "t2" false).recorder.experiment_id
        = r1started.experiment_id ∧
      (r1started.end_run Backend.init STATUS_FA "t2" false).recorder.start_time
        = r1started.start_time ∧
      (r1started.end_run Backend.init STATUS_FA "t2" false).recorder.artifact_uri
        = r1started.artifact_uri) :=
  ⟨by decide,
    end_run_frame r1started Backend.init STATUS_FA "t2" false (by decide)⟩
